import Mathlib

/-!
Shallow embedding of the media-transcription pipeline of src/script.py
(korkordesmond/chartie-square).  Pure data flow is modelled directly; the
effectful boundaries (the ffmpeg run, the pydub decode, the two speech
providers, tempfile names, os.path.getsize) enter as explicit environment
parameters, and the file-system effects (created and unlinked paths) are
returned alongside the Python return value.  A Python value that may be
either `str` or `None` is modelled as `Option String`.
-/

namespace Chartie

/-- Environment of one transcribe_with_fallback call: the outcome of each
provider attempt on that waveform, in the fixed order of src/script.py
(Google Speech Recognition first, Google Cloud Speech second).  `some t`
models the provider call returning text `t`; `none` models the attempt
raising an exception (network error, quota, unsupported audio, missing
credentials, ...), which the source catches and logs. -/
structure ChunkEnv where
  google : Option String
  googleCloud : Option String

/-- transcribe_with_fallback (src/script.py lines 99-125): try Google
Speech Recognition, on failure try Google Cloud Speech, returning the
first success.  The local variable of line 101 (initialised to the empty
string) is never returned: when both attempts fail, control falls off the
end of the function body, so Python returns `None`, modelled as `none`. -/
def transcribe_with_fallback (env : ChunkEnv) : Option String :=
  match env.google with
  | some text => some text
  | none =>
    match env.googleCloud with
    | some text => some text
    | none => none

/-- One element of the list built by split_audio_file: the path of the
exported chunk file together with the time window (start ms, length ms)
of the pydub slice written to it; the window is `none` when the element
is the original, un-sliced input file (the degraded fallback of
src/script.py line 97). -/
structure Chunk where
  path : String
  window : Option (Nat × Nat)
deriving DecidableEq

/-- Python's built-in range(start, stop, step) for a positive step: the
arithmetic progression start, start + step, ... strictly below stop.  Per
the Python documentation it has max(0, ceil((stop - start) / step))
elements and element k is start + k * step. -/
def pyRange (start stop step : Nat) : List Nat :=
  (List.range ((stop - start + step - 1) / step)).map (fun k => start + k * step)

/-- split_audio_file (src/script.py lines 78-97).  `decode` is the result
of AudioSegment.from_wav on line 82: `some d` gives the loaded waveform's
duration in ms (its pydub length), while `none` models the load raising
(corrupt waveform), in which case the except handler of lines 95-97
returns the one-element list holding the original path.  On success the
loop `for i in range(0, len(audio), chunk_length_ms)` exports the slice
audio[i:i + chunk_length_ms] (whose window is [i, min (i +
chunk_length_ms) d)) to a fresh temp file, modelled by `tempName i`. -/
def split_audio_file (decode : Option Nat) (audio_path : String)
    (tempName : Nat → String) (chunk_length_ms : Nat) : List Chunk :=
  match decode with
  | some d =>
    (pyRange 0 d chunk_length_ms).map
      (fun i => { path := tempName i, window := some (i, min (i + chunk_length_ms) d - i) })
  | none => [{ path := audio_path, window := none }]

/-- The for-loop of transcribe_audio_file (src/script.py lines 140-147)
over the chunk list.  It accumulates full_transcription and, in order,
the list of paths passed to os.unlink.  When transcribe_with_fallback
yields None, the statement `full_transcription += " " + chunk_text`
raises TypeError before the cleanup of that chunk runs, aborting the
loop: modelled by returning `none` together with only the deletions
already performed. -/
def chunkLoop (env : String → ChunkEnv) (audio_path : String) :
    List Chunk → String → List String → Option String × List String
  | [], full_transcription, deleted => (some full_transcription, deleted)
  | chunk :: rest, full_transcription, deleted =>
    match transcribe_with_fallback (env chunk.path) with
    | none => (none, deleted)
    | some chunk_text =>
      chunkLoop env audio_path rest (full_transcription ++ " " ++ chunk_text)
        (if chunk.path ≠ audio_path then deleted ++ [chunk.path] else deleted)

/-- Python's str.strip() with no argument: remove leading and trailing
whitespace.  Defined structurally over the character list so that
concrete runs reduce inside the kernel. -/
def pyStrip (s : String) : String :=
  String.mk (((s.data.dropWhile Char.isWhitespace).reverse.dropWhile Char.isWhitespace).reverse)

/-- The oversized branch of transcribe_audio_file (src/script.py lines
135-149): split, loop over the chunks, then return
full_transcription.strip(); a TypeError raised inside the loop lands in
the handler of line 153, which returns the empty string. -/
def chunked_branch (env : String → ChunkEnv) (audio_path : String)
    (decode : Option Nat) (tempName : Nat → String) : Option String × List String :=
  match chunkLoop env audio_path (split_audio_file decode audio_path tempName 30000) "" [] with
  | (some full_transcription, deleted) => (some (pyStrip full_transcription), deleted)
  | (none, deleted) => (some "", deleted)

/-- transcribe_audio_file (src/script.py lines 128-155).  `size` is
os.path.getsize(audio_path); `decode` and `tempName` are the environment
of split_audio_file.  Over the 10 MiB limit it takes the chunked branch;
otherwise it returns the provider chain's outcome on the whole file (a
value that is `None` exactly when transcribe_with_fallback returned
`None`).  The second component lists the paths the call unlinked. -/
def transcribe_audio_file (env : String → ChunkEnv) (audio_path : String)
    (size : Nat) (decode : Option Nat) (tempName : Nat → String) :
    Option String × List String :=
  if 10 * 1024 * 1024 < size then chunked_branch env audio_path decode tempName
  else (transcribe_with_fallback (env audio_path), [])

/-- Run record of extract_audio_from_video: the Python return value plus
the temp files the call created and the paths it unlinked. -/
structure ExtractRun where
  result : Option String
  created : List String
  deleted : List String
deriving DecidableEq

/-- extract_audio_from_video (src/script.py lines 14-38).  A temp .wav
file is acquired at line 18 (always created, `delete=False`); `ffmpegOk`
models the external transcoder run of lines 24-30 finishing with exit
code 0.  On success the temp path is returned; on ffmpeg error or any
other exception the handlers of lines 33-38 print a message and return
None without unlinking anything. -/
def extract_audio_from_video (ffmpegOk : Bool) (temp_audio_path : String) : ExtractRun :=
  if ffmpegOk then
    { result := some temp_audio_path, created := [temp_audio_path], deleted := [] }
  else
    { result := none, created := [temp_audio_path], deleted := [] }

/-- The pydub loader convert_audio_to_wav dispatches to, mirroring the
chain of src/script.py lines 52-62 (reached only when the extension is
not ".wav", which line 46 handles before the dispatch). -/
inductive AudioLoader where
  | fromMp3
  | fromFlac
  | fromM4a
  | fromAac
  | generic
deriving DecidableEq

/-- The dispatch of src/script.py lines 52-62: known extensions map to
their dedicated pydub loaders, anything else to the generic
AudioSegment.from_file call of line 62. -/
def audio_loader (file_ext : String) : AudioLoader :=
  if file_ext = ".mp3" then AudioLoader.fromMp3
  else if file_ext = ".flac" then AudioLoader.fromFlac
  else if file_ext = ".m4a" then AudioLoader.fromM4a
  else if file_ext = ".aac" then AudioLoader.fromAac
  else AudioLoader.generic

/-- convert_audio_to_wav (src/script.py lines 40-76).  `file_ext` is the
lowercased extension the source computes on line 43; when it is ".wav"
the original path is returned as is.  Otherwise `decodeOk` models the
pydub load (dispatched per audio_loader) and the export to the fresh
temp file `temp_wav_path` both succeeding; any raise lands in the except
handler of lines 74-76, which returns None. -/
def convert_audio_to_wav (audio_path file_ext : String) (decodeOk : Bool)
    (temp_wav_path : String) : Option String :=
  if file_ext = ".wav" then some audio_path
  else if decodeOk then some temp_wav_path else none

/-- The video extension set of src/script.py line 162. -/
def video_extensions : List String := [".mp4", ".avi", ".mkv", ".mov", ".wmv"]

/-- Environment of one transcribe_media_file run: outcomes of the ffmpeg
run and the pydub conversion, the temp paths those stages acquire, the
byte size and wav-decode outcome seen by transcribe_audio_file, the
chunk temp-name supply, and the per-waveform provider outcomes. -/
structure MediaEnv where
  ffmpegOk : Bool
  video_temp : String
  decodeOk : Bool
  audio_temp : String
  size : Nat
  wav_decode : Option Nat
  chunkTemp : Nat → String
  providers : String → ChunkEnv

/-- The video branch of transcribe_media_file (src/script.py lines
163-174): extract, bail out with "" on a falsy (None) result, otherwise
transcribe and, in the finally block, unlink the extracted temp file. -/
def video_branch (env : MediaEnv) : Option String × List String :=
  let ex := extract_audio_from_video env.ffmpegOk env.video_temp
  match ex.result with
  | none => (some "", ex.deleted)
  | some temp_audio_path =>
    let r := transcribe_audio_file env.providers temp_audio_path env.size env.wav_decode
      env.chunkTemp
    (r.1, ex.deleted ++ r.2 ++ [temp_audio_path])

/-- The audio branch of transcribe_media_file (src/script.py lines
177-188): convert, bail out with "" on a falsy (None) result, otherwise
transcribe and, in the finally block, unlink the converted temp file
when one was created (wav_path != filename). -/
def audio_branch (env : MediaEnv) (file_ext filename : String) : Option String × List String :=
  match convert_audio_to_wav filename file_ext env.decodeOk env.audio_temp with
  | none => (some "", [])
  | some wav_path =>
    let r := transcribe_audio_file env.providers wav_path env.size env.wav_decode env.chunkTemp
    (r.1, r.2 ++ if wav_path ≠ filename then [wav_path] else [])

/-- transcribe_media_file (src/script.py lines 157-188).  `file_ext` is
the lowercased extension os.path.splitext(filename)[1].lower() of line
159; extensions in the video set go to the Demuxer branch, every other
extension to the Normalizer branch. -/
def transcribe_media_file (env : MediaEnv) (file_ext filename : String) :
    Option String × List String :=
  if file_ext ∈ video_extensions then video_branch env
  else audio_branch env file_ext filename

/-- Modelled from the spec: the final transcript is the per-chunk
TranscriptionResult.text values in ascending index order, joined by a
single space and trimmed (spec section 3), the text of a chunk whose
providers were all exhausted being the empty string. -/
def specFinalTranscript (texts : List String) : String :=
  pyStrip (String.intercalate " " texts)

/-- Sample fresh temp-file name supply used by the concrete runs below,
standing in for the names tempfile.NamedTemporaryFile generates. -/
def sampleChunkName (i : Nat) : String := "chunk_" ++ toString i

/-- Provider environment in which every attempt fails. -/
def allFail : String → ChunkEnv := fun _ => { google := none, googleCloud := none }

/-- Provider environment in which the first chunk file is recognized as
"foo" and every other attempt fails. -/
def fooThenFail : String → ChunkEnv := fun p =>
  if p = sampleChunkName 0 then { google := some "foo", googleCloud := none }
  else { google := none, googleCloud := none }

/-- Media environment whose video path fails at the ffmpeg run. -/
def envFailDemux : MediaEnv :=
  { ffmpegOk := false, video_temp := "vt.wav", decodeOk := true,
    audio_temp := "at.wav", size := 0, wav_decode := some 0,
    chunkTemp := sampleChunkName, providers := allFail }

/-- Media environment for a fully successful small-file run whose only
provider text is the empty string. -/
def envEmptyOk : MediaEnv :=
  { ffmpegOk := true, video_temp := "vt.wav", decodeOk := true,
    audio_temp := "at.wav", size := 0, wav_decode := some 0,
    chunkTemp := sampleChunkName,
    providers := fun _ => { google := some "", googleCloud := none } }

/-- Media environment whose audio path fails at the pydub conversion. -/
def envFailConvert : MediaEnv :=
  { ffmpegOk := true, video_temp := "vt.wav", decodeOk := false,
    audio_temp := "at.wav", size := 0, wav_decode := some 0,
    chunkTemp := sampleChunkName, providers := allFail }

/-- C1 (code bug): on a chunk where every provider fails,
transcribe_with_fallback returns Python None (modelled `none`), not the
empty-string success-shaped result the claim states; the dead local
assignment of line 101 shows the empty string was the intended value. -/
theorem transcribe_with_fallback_total_failure_none :
    transcribe_with_fallback { google := none, googleCloud := none } = none ∧
    transcribe_with_fallback { google := none, googleCloud := none } ≠ some "" := by
  decide

/-- C8: when splitting fails (the pydub load of the waveform raises),
split_audio_file returns a single-element chunk list wrapping the
original, unmodified waveform path, propagating no failure. -/
theorem split_audio_file_failure_single_chunk (audio_path : String)
    (tempName : Nat → String) (chunk_length_ms : Nat) :
    split_audio_file none audio_path tempName chunk_length_ms
      = [{ path := audio_path, window := none }] := rfl

/-- C9: when the Chunker degrades to the one-element list holding the
original path (decode failed), the per-chunk cleanup, guarded by
chunk_path != audio_path, never unlinks the original file: no run of
transcribe_audio_file with a failed decode deletes audio_path. -/
theorem transcribe_audio_file_preserves_original (env : String → ChunkEnv)
    (audio_path : String) (size : Nat) (tempName : Nat → String) :
    audio_path ∉ (transcribe_audio_file env audio_path size none tempName).2 := by
  by_cases hs : 10 * 1024 * 1024 < size
  · simp only [transcribe_audio_file, if_pos hs, chunked_branch, split_audio_file]
    cases h : transcribe_with_fallback (env audio_path) with
    | none => simp [chunkLoop, h]
    | some t => simp [chunkLoop, h]
  · simp [transcribe_audio_file, if_neg hs]

/-- C6: for a waveform of duration d ms split successfully with chunk
duration c, the chunks of split_audio_file are windows in index order
(chunk i covers [i * c, min (i * c + c) d)), their count is
ceil(d / c) = (d + c - 1) / c, every non-final chunk has length exactly
c, every chunk is nonempty with length at most c, distinct chunks do not
overlap, and every instant t < d lies in the window of chunk t / c, so
the windows are contiguous and cover the whole waveform. -/
theorem split_audio_file_chunk_windows (d c : Nat) (audio_path : String)
    (tempName : Nat → String) (hc : 0 < c) :
    (split_audio_file (some d) audio_path tempName c).length = (d + c - 1) / c
    ∧ (∀ i, (hi : i < (split_audio_file (some d) audio_path tempName c).length) →
        (split_audio_file (some d) audio_path tempName c)[i].window
          = some (i * c, min (i * c + c) d - i * c))
    ∧ (∀ i, i + 1 < (d + c - 1) / c → min (i * c + c) d - i * c = c)
    ∧ (∀ i, i < (d + c - 1) / c →
        0 < min (i * c + c) d - i * c ∧ min (i * c + c) d - i * c ≤ c)
    ∧ (∀ i j, i < j → j < (d + c - 1) / c →
        i * c + (min (i * c + c) d - i * c) ≤ j * c)
    ∧ (∀ t, t < d → t / c < (d + c - 1) / c ∧ t / c * c ≤ t
        ∧ t < t / c * c + (min (t / c * c + c) d - t / c * c)) := by
  refine ⟨?_, ?_, ?_, ?_, ?_, ?_⟩
  · simp [split_audio_file, pyRange]
  · intro i hi
    simp only [split_audio_file, pyRange, Nat.sub_zero, List.length_map,
      List.length_range] at hi ⊢
    simp only [List.getElem_map, List.getElem_range, Nat.zero_add]
  · intro i hi
    have hi2 : i + 1 + 1 ≤ (d + c - 1) / c := Nat.succ_le_of_lt hi
    have h2 : (i + 1 + 1) * c ≤ d + c - 1 := (Nat.le_div_iff_mul_le hc).mp hi2
    have hx : (i + 1 + 1) * c = i * c + 2 * c := by ring
    rw [hx] at h2
    obtain ⟨x, hxe⟩ : ∃ x, x = i * c := ⟨_, rfl⟩
    rw [← hxe] at h2 ⊢
    clear hxe
    omega
  · intro i hi
    have hi2 : i + 1 ≤ (d + c - 1) / c := Nat.succ_le_of_lt hi
    have h2 : (i + 1) * c ≤ d + c - 1 := (Nat.le_div_iff_mul_le hc).mp hi2
    have hx : (i + 1) * c = i * c + c := by ring
    rw [hx] at h2
    obtain ⟨x, hxe⟩ : ∃ x, x = i * c := ⟨_, rfl⟩
    rw [← hxe] at h2 ⊢
    clear hxe
    omega
  · intro i j hij hj
    have h1 : (i + 1) * c ≤ j * c := mul_le_mul_right' (by omega) c
    have hx : (i + 1) * c = i * c + c := by ring
    rw [hx] at h1
    obtain ⟨x, hxe⟩ : ∃ x, x = i * c := ⟨_, rfl⟩
    obtain ⟨y, hye⟩ : ∃ y, y = j * c := ⟨_, rfl⟩
    rw [← hxe] at h1 ⊢
    rw [← hye] at h1 ⊢
    clear hxe hye
    omega
  · intro t ht
    refine ⟨?_, Nat.div_mul_le_self t c, ?_⟩
    · have he : d + c - 1 = d - 1 + c := by omega
      have hN : (d + c - 1) / c = (d - 1) / c + 1 := by
        rw [he, Nat.add_div_right _ hc]
      have h1 : t / c ≤ (d - 1) / c := Nat.div_le_div_right (by omega)
      rw [hN]
      exact Nat.lt_succ_of_le h1
    · have hlt : t < t / c * c + c := Nat.lt_div_mul_add hc
      have hle : t / c * c ≤ t := Nat.div_mul_le_self t c
      obtain ⟨x, hxe⟩ : ∃ x, x = t / c * c := ⟨_, rfl⟩
      rw [← hxe] at hlt hle ⊢
      clear hxe
      omega

/-- Witness for C6 at a 70 000 ms waveform with 30 000 ms chunks. -/
theorem split_audio_file_chunk_windows_witness :
    (split_audio_file (some 70000) "a.wav" sampleChunkName 30000).length
        = (70000 + 30000 - 1) / 30000
    ∧ (∀ i, (hi : i < (split_audio_file (some 70000) "a.wav" sampleChunkName 30000).length) →
        (split_audio_file (some 70000) "a.wav" sampleChunkName 30000)[i].window
          = some (i * 30000, min (i * 30000 + 30000) 70000 - i * 30000))
    ∧ (∀ i, i + 1 < (70000 + 30000 - 1) / 30000 →
        min (i * 30000 + 30000) 70000 - i * 30000 = 30000)
    ∧ (∀ i, i < (70000 + 30000 - 1) / 30000 →
        0 < min (i * 30000 + 30000) 70000 - i * 30000
        ∧ min (i * 30000 + 30000) 70000 - i * 30000 ≤ 30000)
    ∧ (∀ i j, i < j → j < (70000 + 30000 - 1) / 30000 →
        i * 30000 + (min (i * 30000 + 30000) 70000 - i * 30000) ≤ j * 30000)
    ∧ (∀ t, t < 70000 → t / 30000 < (70000 + 30000 - 1) / 30000
        ∧ t / 30000 * 30000 ≤ t
        ∧ t < t / 30000 * 30000
            + (min (t / 30000 * 30000 + 30000) 70000 - t / 30000 * 30000)) :=
  split_audio_file_chunk_windows 70000 30000 "a.wav" sampleChunkName (by norm_num)

/-- C2 (code bug): an 10 MiB + 1 input whose waveform splits into the
two chunk files sampleChunkName 0 and sampleChunkName 30000, with both
providers failing on chunk 0: the TypeError raised by concatenating None
skips the per-chunk cleanup, the loop aborts, and the run unlinks no
file at all — both chunk temp files leak. -/
theorem transcribe_audio_file_leaks_chunk_files :
    (split_audio_file (some 60000) "orig.wav" sampleChunkName 30000).map Chunk.path
      = [sampleChunkName 0, sampleChunkName 30000]
    ∧ transcribe_audio_file allFail "orig.wav" (10 * 1024 * 1024 + 1) (some 60000)
        sampleChunkName
      = (some "", []) := by
  decide

/-- C3 (code bug): when the ffmpeg run fails, extract_audio_from_video
returns the failure outcome None, but the except handlers of lines 33-38
never unlink the temp file acquired at line 18: the partially written
file is left on disk. -/
theorem extract_audio_from_video_failure_leaves_temp (temp_audio_path : String) :
    (extract_audio_from_video false temp_audio_path).result = none
    ∧ (extract_audio_from_video false temp_audio_path).created = [temp_audio_path]
    ∧ (extract_audio_from_video false temp_audio_path).deleted = [] :=
  ⟨rfl, rfl, rfl⟩

/-- C5 (code bug): on an oversized input whose chunk 0 is recognized as
"foo" while chunk 1's providers are all exhausted, transcribe_audio_file
returns the empty string (the TypeError lands in the except handler of
line 153), while the spec's join of the per-chunk texts — "foo" and the
empty string for the exhausted chunk — is "foo". -/
theorem transcribe_audio_file_not_spec_join :
    (transcribe_audio_file fooThenFail "orig.wav" (10 * 1024 * 1024 + 1) (some 60000)
        sampleChunkName).1
      = some ""
    ∧ specFinalTranscript ["foo", ""] = "foo"
    ∧ some (specFinalTranscript ["foo", ""]) ≠ some ("" : String) := by
  decide

/-- C7: the chunked branch runs exactly when the encoded byte size
exceeds 10 MiB = 10 * 1024 * 1024 bytes strictly; at or under the limit
the waveform goes to the provider chain as a single chunk and no temp
chunk file is touched.  Both parts hold for every decode outcome and
duration, so the decision depends only on the byte size. -/
theorem transcribe_audio_file_size_threshold (env : String → ChunkEnv)
    (audio_path : String) (size : Nat) (decode : Option Nat) (tempName : Nat → String) :
    (10 * 1024 * 1024 < size →
      transcribe_audio_file env audio_path size decode tempName
        = chunked_branch env audio_path decode tempName)
    ∧ (size ≤ 10 * 1024 * 1024 →
      transcribe_audio_file env audio_path size decode tempName
        = (transcribe_with_fallback (env audio_path), [])) := by
  constructor
  · intro h
    simp [transcribe_audio_file, h]
  · intro h
    simp [transcribe_audio_file, Nat.not_lt.mpr h]

/-- Witness for C7 at the threshold boundary: one byte over 10 MiB takes
the chunked branch, exactly 10 MiB does not. -/
theorem transcribe_audio_file_size_threshold_witness :
    transcribe_audio_file allFail "a.wav" (10 * 1024 * 1024 + 1) (some 0) sampleChunkName
      = chunked_branch allFail "a.wav" (some 0) sampleChunkName
    ∧ transcribe_audio_file allFail "a.wav" (10 * 1024 * 1024) (some 0) sampleChunkName
      = (transcribe_with_fallback (allFail "a.wav"), []) :=
  ⟨(transcribe_audio_file_size_threshold allFail "a.wav" (10 * 1024 * 1024 + 1) (some 0)
      sampleChunkName).1 (by norm_num),
   (transcribe_audio_file_size_threshold allFail "a.wav" (10 * 1024 * 1024) (some 0)
      sampleChunkName).2 (by norm_num)⟩

/-- C4 counterexample: a demuxer-stage failure (.mp4 input, ffmpeg run
fails) and a fully successful .wav run whose recognized text is empty
return the identical value, the Python string "" — the returned value
does not distinguish stage failure from degenerate success, and no
distinct Failed outcome exists. -/
theorem transcribe_media_file_failure_indistinguishable :
    (transcribe_media_file envFailDemux ".mp4" "v.mp4").1 = some ""
    ∧ (transcribe_media_file envEmptyOk ".wav" "a.wav").1 = some "" := by
  decide

/-- C4 amended: on Demuxer failure, and on Normalizer failure for a
non-wav audio extension, transcribe_media_file returns the same value
some "" that an entirely empty successful transcript yields, so the
caller cannot tell stage failure from degenerate empty success apart
from the returned value. -/
theorem transcribe_media_file_stage_failure_empty (env : MediaEnv)
    (file_ext filename : String) :
    (file_ext ∈ video_extensions → env.ffmpegOk = false →
      (transcribe_media_file env file_ext filename).1 = some "")
    ∧ (file_ext ∉ video_extensions → file_ext ≠ ".wav" → env.decodeOk = false →
      (transcribe_media_file env file_ext filename).1 = some "") := by
  constructor
  · intro hv hff
    simp [transcribe_media_file, hv, video_branch, extract_audio_from_video, hff]
  · intro hv hw hd
    simp [transcribe_media_file, hv, audio_branch, convert_audio_to_wav, hw, hd]

/-- Witness for the amended C4 at the two stage-failure kinds. -/
theorem transcribe_media_file_stage_failure_empty_witness :
    (transcribe_media_file envFailDemux ".mp4" "v.mp4").1 = some ""
    ∧ (transcribe_media_file envFailConvert ".ogg" "a.ogg").1 = some "" :=
  ⟨(transcribe_media_file_stage_failure_empty envFailDemux ".mp4" "v.mp4").1
      (by decide) rfl,
   (transcribe_media_file_stage_failure_empty envFailConvert ".ogg" "a.ogg").2
      (by decide) (by decide) rfl⟩

/-- C10: transcribe_media_file routes every extension outside the video
set to the audio branch (no extension is rejected), and a non-wav
extension outside the known decode table falls through to the generic
pydub loader. -/
theorem transcribe_media_file_audio_route_generic (env : MediaEnv)
    (file_ext filename : String) (h : file_ext ∉ video_extensions) :
    transcribe_media_file env file_ext filename = audio_branch env file_ext filename
    ∧ (file_ext ∉ [".mp3", ".flac", ".m4a", ".aac"] →
        audio_loader file_ext = AudioLoader.generic) := by
  constructor
  · simp [transcribe_media_file, h]
  · intro h2
    have h3 : file_ext ≠ ".mp3" ∧ file_ext ≠ ".flac" ∧ file_ext ≠ ".m4a"
        ∧ file_ext ≠ ".aac" := by
      simpa using h2
    simp [audio_loader, h3.1, h3.2.1, h3.2.2.1, h3.2.2.2]

/-- Witness for C10 at an extension outside the recognized media set. -/
theorem transcribe_media_file_audio_route_generic_witness :
    transcribe_media_file envEmptyOk ".ogg" "x.ogg" = audio_branch envEmptyOk ".ogg" "x.ogg"
    ∧ ((".ogg" : String) ∉ [".mp3", ".flac", ".m4a", ".aac"] →
        audio_loader ".ogg" = AudioLoader.generic) :=
  transcribe_media_file_audio_route_generic envEmptyOk ".ogg" "x.ogg" (by decide)

end Chartie
